import Mathlib

/-!
Verification of the DAMASK Grid / Colormap specification claims against a
shallow embedding of `src/python/damask/_grid.py` and
`src/python/damask/_colormap.py`.

Modelling conventions:
* numpy float scalars on the Grid side (`size`, `origin`, shade fields) are
  modelled as exact rationals; material indices are `Int`.
* the perceptual colour pipeline (Msh interpolation) is modelled over `ℝ`
  because it uses `cos`, `sin`, `sqrt`, `arccos`, `atan2` and fractional powers.
* a 3d numpy array is a shape triple plus a total index function; python
  exceptions are an `Except` value.
* results of calls into external libraries (scipy resampling, rotation
  kernels) that are out of scope of the repository are taken as explicit
  arguments of the corresponding transform.
-/

namespace Damask

/-- Python exception kind raised by the embedded code paths. -/
inductive PyErr where
  | valueError : PyErr
  | typeError : PyErr
deriving DecidableEq, Repr

/-- 3d array of material indices: shape `(n1, n2, n3)` plus index function
(`numpy` ndarray with `arr[i, j, k] = dat i j k`). -/
structure Arr3 where
  n1 : Nat
  n2 : Nat
  n3 : Nat
  dat : Nat → Nat → Nat → Int

/-- Flatten in C order (last index fastest), as `ndarray.flatten()`. -/
def Arr3.entriesC (a : Arr3) : List Int :=
  (List.range a.n1).flatMap fun i =>
    (List.range a.n2).flatMap fun j =>
      (List.range a.n3).map fun k => a.dat i j k

/-- Flatten in Fortran order (first index fastest), as `flatten(order=F)`. -/
def Arr3.entriesF (a : Arr3) : List Int :=
  (List.range a.n3).flatMap fun k =>
    (List.range a.n2).flatMap fun j =>
      (List.range a.n1).map fun i => a.dat i j k

/-- Maximum of a list of ints (`np.nanmax`; the source errors on an empty
array, here the default `0` is returned, only reachable for empty grids). -/
def listMaxI (l : List Int) : Int := l.foldl max (l.headD 0)

/-- `np.nanmax(material)` over all entries. -/
def Arr3.maxVal (a : Arr3) : Int := listMaxI a.entriesC

/-- Geometry definition for grid solvers (`Grid.__init__` stores material,
size, origin and the comments list). -/
structure Grid where
  material : Arr3
  size : ℚ × ℚ × ℚ
  origin : ℚ × ℚ × ℚ
  comments : List String

/-- `Grid.cells`: the shape of the material array. -/
def Grid.cells (g : Grid) : Nat × Nat × Nat :=
  (g.material.n1, g.material.n2, g.material.n3)

/-- `util.execution_stamp`: provenance string (the wall-clock timestamp and
version of the real stamp are irrelevant to the claims and omitted). -/
def execution_stamp (class_name : String) (function_name : String) : String :=
  "damask." ++ class_name ++ "." ++ function_name

/-- Python `str.lower()` (ASCII model, sufficient for the model names the
source compares against). -/
def strLower (s : String) : String := ⟨s.data.map Char.toLower⟩

/-- `np.allclose` on scalars: `|a - b| <= atol + rtol * |b|` with numpy
defaults `rtol = 1e-5`, `atol = 1e-8`. -/
def npAllclose (a b : ℚ) : Prop :=
  |a - b| ≤ 1 / 100000000 + 1 / 100000 * |b|

instance (a b : ℚ) : Decidable (npAllclose a b) := by
  unfold npAllclose; infer_instance

/-- `Grid.__eq__` of `self` against `other`: sizes and origins allclose,
identical cell counts and identical material entries. -/
def Grid.eq (self other : Grid) : Prop :=
  npAllclose other.size.1 self.size.1 ∧
  npAllclose other.size.2.1 self.size.2.1 ∧
  npAllclose other.size.2.2 self.size.2.2 ∧
  npAllclose other.origin.1 self.origin.1 ∧
  npAllclose other.origin.2.1 self.origin.2.1 ∧
  npAllclose other.origin.2.2 self.origin.2.2 ∧
  other.cells = self.cells ∧
  (∀ i < self.material.n1, ∀ j < self.material.n2, ∀ k < self.material.n3,
    other.material.dat i j k = self.material.dat i j k)

/-- Direction letters accepted by `mirror`, `flip`, `get_grain_boundaries`. -/
def validDirections (directions : List String) : Bool :=
  directions.all fun d => decide (d ∈ (["x", "y", "z"] : List String))

/-- Mirror along the first axis: concatenation of the array with the reversed
slice, `mat[-2:0:-1]` when not reflecting (drops both outermost layers) and
`mat[::-1]` when reflecting. -/
def Arr3.mirrorAxis1 (a : Arr3) (reflect : Bool) : Arr3 :=
  let ext := if reflect then a.n1 else a.n1 - 2
  ⟨a.n1 + ext, a.n2, a.n3, fun i j k =>
    if i < a.n1 then a.dat i j k
    else if reflect then a.dat (a.n1 - 1 - (i - a.n1)) j k
    else a.dat (a.n1 - 2 - (i - a.n1)) j k⟩

/-- Mirror along the second axis (see `Arr3.mirrorAxis1`). -/
def Arr3.mirrorAxis2 (a : Arr3) (reflect : Bool) : Arr3 :=
  let ext := if reflect then a.n2 else a.n2 - 2
  ⟨a.n1, a.n2 + ext, a.n3, fun i j k =>
    if j < a.n2 then a.dat i j k
    else if reflect then a.dat i (a.n2 - 1 - (j - a.n2)) k
    else a.dat i (a.n2 - 2 - (j - a.n2)) k⟩

/-- Mirror along the third axis (see `Arr3.mirrorAxis1`). -/
def Arr3.mirrorAxis3 (a : Arr3) (reflect : Bool) : Arr3 :=
  let ext := if reflect then a.n3 else a.n3 - 2
  ⟨a.n1, a.n2, a.n3 + ext, fun i j k =>
    if k < a.n3 then a.dat i j k
    else if reflect then a.dat i j (a.n3 - 1 - (k - a.n3))
    else a.dat i j (a.n3 - 2 - (k - a.n3))⟩

/-- `Grid.mirror`: mirror along the requested directions; the new size is
`size / cells * mat.shape` so per-cell spacing is preserved. -/
def Grid.mirror (g : Grid) (directions : List String) (reflect : Bool) : Grid :=
  let m1 := if "x" ∈ directions then g.material.mirrorAxis1 reflect else g.material
  let m2 := if "y" ∈ directions then m1.mirrorAxis2 reflect else m1
  let m3 := if "z" ∈ directions then m2.mirrorAxis3 reflect else m2
  { material := m3,
    size := (g.size.1 / g.material.n1 * m3.n1,
             g.size.2.1 / g.material.n2 * m3.n2,
             g.size.2.2 / g.material.n3 * m3.n3),
    origin := g.origin,
    comments := g.comments ++ [execution_stamp "Grid" "mirror"] }

/-- `Grid.mirror` including the direction-letter validation (the source
raises `ValueError` on an unknown direction before anything else). -/
def Grid.mirrorChecked (g : Grid) (directions : List String) (reflect : Bool) :
    Except PyErr Grid :=
  if validDirections directions then .ok (g.mirror directions reflect)
  else .error .valueError

/-- `Grid.flip`: reverse order along the named axes (`np.flip`); assumes the
direction list has no duplicates (numpy raises on a repeated axis). -/
def Grid.flip (g : Grid) (directions : List String) : Grid :=
  let a := g.material
  { material := ⟨a.n1, a.n2, a.n3, fun i j k =>
      a.dat (if "x" ∈ directions then a.n1 - 1 - i else i)
            (if "y" ∈ directions then a.n2 - 1 - j else j)
            (if "z" ∈ directions then a.n3 - 1 - k else k)⟩,
    size := g.size,
    origin := g.origin,
    comments := g.comments ++ [execution_stamp "Grid" "flip"] }

/-- `Grid.flip` including the direction-letter validation. -/
def Grid.flipChecked (g : Grid) (directions : List String) : Except PyErr Grid :=
  if validDirections directions then .ok (g.flip directions) else .error .valueError

/-- `Grid.scale`: the resampled array produced by the external
`ndimage.interpolation.zoom` call is passed in; size and origin are kept. -/
def Grid.scale (g : Grid) (zoomed : Arr3) : Grid :=
  { material := zoomed,
    size := g.size,
    origin := g.origin,
    comments := g.comments ++ [execution_stamp "Grid" "scale"] }

/-- `Grid.rotate`: the resampled array produced by the external
`ndimage.rotate` / `np.rot90` loop is passed in; size and origin are
recomputed from its shape exactly as in the source. -/
def Grid.rotate (g : Grid) (rotated : Arr3) : Grid :=
  { material := rotated,
    size := (g.size.1 / g.material.n1 * rotated.n1,
             g.size.2.1 / g.material.n2 * rotated.n2,
             g.size.2.2 / g.material.n3 * rotated.n3),
    origin := (g.origin.1 - ((rotated.n1 : ℚ) - g.material.n1) * (1/2) * (g.size.1 / g.material.n1),
               g.origin.2.1 - ((rotated.n2 : ℚ) - g.material.n2) * (1/2) * (g.size.2.1 / g.material.n2),
               g.origin.2.2 - ((rotated.n3 : ℚ) - g.material.n3) * (1/2) * (g.size.2.2 / g.material.n3)),
    comments := g.comments ++ [execution_stamp "Grid" "rotate"] }

/-- `Grid.add_primitive`: the boolean exclusion mask (built in the source
from `grid_filters` coordinates, the rotation and the superellipsoid
inequality, all involving collaborators outside `src/`) is passed in;
`np.where(mask, material, fill)` keeps the original value where the mask is
true. -/
def Grid.add_primitive (g : Grid) (mask : Nat → Nat → Nat → Bool)
    (fill : Option Int) (inverse : Bool) : Grid :=
  let fillVal := fill.getD (g.material.maxVal + 1)
  { material := ⟨g.material.n1, g.material.n2, g.material.n3, fun i j k =>
      if (if inverse then !(mask i j k) else mask i j k) then g.material.dat i j k
      else fillVal⟩,
    size := g.size,
    origin := g.origin,
    comments := g.comments ++ [execution_stamp "Grid" "add_primitive"] }

/-- One pass of the substitution loop: final value of
`material[self.material == f] = t` iterated over `zip(from, to)` at a voxel
whose original id is `x`. -/
def substVal (pairs : List (Int × Int)) (x : Int) : Int :=
  pairs.foldl (fun acc p => if x = p.1 then p.2 else acc) x

/-- `Grid.substitute`: remap listed material indices (masks are computed
against the original array, so a later pair overrides an earlier one). -/
def Grid.substitute (g : Grid) (from_material to_material : List Int) : Grid :=
  let pairs := from_material.zip to_material
  { material := ⟨g.material.n1, g.material.n2, g.material.n3, fun i j k =>
      substVal pairs (g.material.dat i j k)⟩,
    size := g.size,
    origin := g.origin,
    comments := g.comments ++ [execution_stamp "Grid" "substitute"] }

/-- Insert into an ascending-sorted list of ints. -/
def insertAsc (x : Int) : List Int → List Int
  | [] => [x]
  | y :: ys => if x ≤ y then x :: y :: ys else y :: insertAsc x ys

/-- Ascending insertion sort (model of the numpy sorts used below). -/
def insSort (l : List Int) : List Int := l.foldr insertAsc []

/-- Drop adjacent duplicates of an ascending-sorted list. -/
def dedupAdj : List Int → List Int
  | [] => []
  | [x] => [x]
  | x :: y :: r => if x = y then dedupAdj (y :: r) else x :: dedupAdj (y :: r)

/-- `np.unique(values)`: ascending-sorted distinct values. -/
def sortedUnique (l : List Int) : List Int := dedupAdj (insSort l)

/-- `pd.unique(values)`: distinct values in order of first appearance. -/
def pdUnique (l : List Int) : List Int :=
  l.foldl (fun acc x => if x ∈ acc then acc else acc ++ [x]) []

/-- Insert an index into a list of indices sorted ascending by key. -/
def insertAscBy (key : Nat → Int) (x : Nat) : List Nat → List Nat
  | [] => [x]
  | y :: ys => if key x ≤ key y then x :: y :: ys else y :: insertAscBy key x ys

/-- `np.argsort(vals)`: indices ordered so the keyed values ascend (vals has
distinct entries at its use site, so sort stability is irrelevant). -/
def argsort (vals : List Int) : List Nat :=
  (List.range vals.length).foldr (insertAscBy fun i => vals.getD i 0) []

/-- `np.searchsorted(sorted_vals, x)` (left insertion position): the number
of entries of the ascending-sorted list that are smaller than `x`. -/
def searchsortedL (sorted_vals : List Int) (x : Int) : Nat :=
  sorted_vals.countP fun u => decide (u < x)

/-- The per-value renumbering computed by `Grid.sort`:
`np.unique(a)[sort_idx][np.searchsorted(from_ma, a, sorter=sort_idx)]`,
where `from_ma = pd.unique(a)`, `sort_idx = np.argsort(from_ma)` and
`searchsorted` with a sorter equals left search in the sorted values. -/
def sortMapVal (flatF : List Int) (x : Int) : Int :=
  let s := sortedUnique flatF
  let from_ma := pdUnique flatF
  let sort_idx := argsort from_ma
  s.getD (sort_idx.getD (searchsortedL s x) 0) 0

/-- `Grid.sort`: renumber so that the first-appearing id (Fortran flatten
order) receives the smallest unique value; pointwise on the entries, then
reshaped back to the original cells. -/
def Grid.sort (g : Grid) : Grid :=
  let flatF := g.material.entriesF
  { material := ⟨g.material.n1, g.material.n2, g.material.n3, fun i j k =>
      sortMapVal flatF (g.material.dat i j k)⟩,
    size := g.size,
    origin := g.origin,
    comments := g.comments ++ [execution_stamp "Grid" "sort"] }

/-- `Grid.renumber`: `np.unique(material, return_inverse=True)` maps each
entry to its index in the sorted distinct values. -/
def Grid.renumber (g : Grid) : Grid :=
  let s := sortedUnique g.material.entriesC
  { material := ⟨g.material.n1, g.material.n2, g.material.n3, fun i j k =>
      (s.indexOf (g.material.dat i j k) : Int)⟩,
    size := g.size,
    origin := g.origin,
    comments := g.comments ++ [execution_stamp "Grid" "renumber"] }

/-- `np.clip` on an integer scalar: `min(hi, max(x, lo))`. -/
def clipZ (x lo hi : Int) : Int := min hi (max x lo)

/-- The four clipped bounds `(LL, UR, ll, ur)` of `Grid.canvas` for one axis
(`n` old cells, `c` new cells, `o` offset). -/
def canvasRange (n c : Nat) (o : Int) : Int × Int × Int × Int :=
  (clipZ o 0 (min (n : Int) ((c : Int) + o)),
   clipZ (o + c) 0 (min (n : Int) ((c : Int) + o)),
   clipZ (-o) 0 (min (c : Int) ((n : Int) - o)),
   clipZ (-o + n) 0 (min (c : Int) ((n : Int) - o)))

/-- `Grid.canvas`: crop or pad to new cell dimensions at an offset; the fresh
canvas is filled with `fill` (default `max+1`) and the clipped index ranges
of the old grid are copied in. -/
def Grid.canvas (g : Grid) (cells : Option (Nat × Nat × Nat))
    (offset : Option (Int × Int × Int)) (fill : Option Int) : Grid :=
  let off := offset.getD (0, 0, 0)
  let cs := cells.getD g.cells
  let fillVal := fill.getD (g.material.maxVal + 1)
  let r1 := canvasRange g.material.n1 cs.1 off.1
  let r2 := canvasRange g.material.n2 cs.2.1 off.2.1
  let r3 := canvasRange g.material.n3 cs.2.2 off.2.2
  { material := ⟨cs.1, cs.2.1, cs.2.2, fun i j k =>
      if r1.2.2.1 ≤ (i : Int) ∧ (i : Int) < r1.2.2.2 ∧
         r2.2.2.1 ≤ (j : Int) ∧ (j : Int) < r2.2.2.2 ∧
         r3.2.2.1 ≤ (k : Int) ∧ (k : Int) < r3.2.2.2 then
        g.material.dat ((i : Int) - r1.2.2.1 + r1.1).toNat
                       ((j : Int) - r2.2.2.1 + r2.1).toNat
                       ((k : Int) - r3.2.2.1 + r3.1).toNat
      else fillVal⟩,
    size := (g.size.1 / g.material.n1 * cs.1,
             g.size.2.1 / g.material.n2 * cs.2.1,
             g.size.2.2 / g.material.n3 * cs.2.2),
    origin := (g.origin.1 + off.1 * g.size.1 / g.material.n1,
               g.origin.2.1 + off.2.1 * g.size.2.1 / g.material.n2,
               g.origin.2.2 + off.2.2 * g.size.2.2 / g.material.n3),
    comments := g.comments ++ [execution_stamp "Grid" "canvas"] }

/-- Boundary handling of `scipy.ndimage` filters: `wrap` is periodic,
`nearest` clamps to the edge. -/
def modeIdx (periodic : Bool) (n : Nat) (t : Int) : Nat :=
  if periodic then (t % (n : Int)).toNat else (min (max t 0) ((n : Int) - 1)).toNat

/-- The flattened (C-order) cubic stencil of side `sz` that
`ndimage.filters.generic_filter(size=sz, mode=wrap/nearest)` hands to its
callback at voxel `(i, j, k)`; offsets run over `[-sz/2, sz - 1 - sz/2]`. -/
def Arr3.footprint (a : Arr3) (sz : Nat) (periodic : Bool) (i j k : Nat) : List Int :=
  (List.range sz).flatMap fun di =>
    (List.range sz).flatMap fun dj =>
      (List.range sz).map fun dk =>
        a.dat (modeIdx periodic a.n1 ((i : Int) + di - (sz / 2 : Nat)))
              (modeIdx periodic a.n2 ((j : Int) + dj - (sz / 2 : Nat)))
              (modeIdx periodic a.n3 ((k : Int) + dk - (sz / 2 : Nat)))

/-- `mostFrequent` of `Grid.clean`: modal value of the stencil, ties broken
by the smallest (first in the sorted unique order, as
`unique[argmax(bincount(inverse))]`); with a `selection`, a centre value not
in the selection is left unchanged. -/
def mostFrequent (arr : List Int) (selection : Option (List Int)) : Int :=
  let me := arr.getD (arr.length / 2) 0
  let modal :=
    let u := sortedUnique arr
    (u.foldl (fun best v => if arr.count v > best.2 then (v, arr.count v) else best)
      (u.headD 0, arr.count (u.headD 0))).1
  match selection with
  | none => modal
  | some sel => if me ∈ sel then modal else me

/-- `Grid.clean`: replace each voxel by the most frequent id within the
stencil (filter size `stencil`, or forced odd when a selection is given). -/
def Grid.clean (g : Grid) (stencil : Nat) (selection : Option (List Int))
    (periodic : Bool) : Grid :=
  let sz := match selection with
    | none => stencil
    | some _ => stencil / 2 * 2 + 1
  { material := ⟨g.material.n1, g.material.n2, g.material.n3, fun i j k =>
      mostFrequent (g.material.footprint sz periodic i j k) selection⟩,
    size := g.size,
    origin := g.origin,
    comments := g.comments ++ [execution_stamp "Grid" "clean"] }

/-- `tainted_neighborhood` of `Grid.vicinity_offset`: with no triggers, any
stencil value different from the centre; otherwise any stencil value in the
trigger set minus the centre value. -/
def taintedNeighborhood (stencil : List Int) (trigger : List Int) : Bool :=
  let me := stencil.getD (stencil.length / 2) 0
  if trigger.isEmpty then stencil.any fun x => decide (x ≠ me)
  else stencil.any fun x => decide (x ∈ trigger.filter fun t => decide (t ≠ me))

/-- `Grid.vicinity_offset`: offset the id of voxels whose cubic neighbourhood
of radius `vicinity` is tainted; offset defaults to `max + 1`. -/
def Grid.vicinity_offset (g : Grid) (vicinity : Nat) (offset : Option Int)
    (trigger : List Int) (periodic : Bool) : Grid :=
  let offset_ := offset.getD (g.material.maxVal + 1)
  { material := ⟨g.material.n1, g.material.n2, g.material.n3, fun i j k =>
      if taintedNeighborhood (g.material.footprint (1 + 2 * vicinity) periodic i j k) trigger
      then g.material.dat i j k + offset_
      else g.material.dat i j k⟩,
    size := g.size,
    origin := g.origin,
    comments := g.comments ++ [execution_stamp "Grid" "vicinity_offset"] }

/-- numpy dtype families distinguished by the material setter
(`np.sctypes[float]`, `np.sctypes[int]`, anything else). -/
inductive NpDtype where
  | intT : NpDtype
  | floatT : NpDtype
  | otherT : NpDtype
deriving DecidableEq, Repr

/-- Raw numpy array handed to the `Grid.material` setter: a shape of
arbitrary rank, a dtype family, and the flattened entries (exact values of
the floats). -/
structure NpArray where
  shape : List Nat
  dtype : NpDtype
  flat : Nat → ℚ

/-- Truncation toward zero, the semantics of `ndarray.astype(int)`. -/
def truncQ (x : ℚ) : ℤ := if 0 ≤ x then ⌊x⌋ else ⌈x⌉

/-- `np.all(material == material.astype(int).astype(float))` over the
entries addressed by the shape. -/
def NpArray.allIntegral (m : NpArray) : Bool :=
  (List.range m.shape.prod).all fun i => decide (m.flat i = ((truncQ (m.flat i) : ℤ) : ℚ))

/-- The integer-cast copy stored by the setter when a float array holds only
integral values. -/
def NpArray.intCast (m : NpArray) : NpArray :=
  { shape := m.shape, dtype := .intT, flat := fun i => ((truncQ (m.flat i) : ℤ) : ℚ) }

/-- `Grid.material` setter: reject non-3d shapes with `ValueError`, reject
dtypes that are neither float nor int with `TypeError`, store a copy, and
downcast an all-integral float array to int dtype. -/
def material_setter (m : NpArray) : Except PyErr NpArray :=
  if m.shape.length ≠ 3 then .error .valueError
  else if m.dtype = .otherT then .error .typeError
  else if m.dtype = .floatT ∧ m.allIntegral then .ok m.intCast
  else .ok { shape := m.shape, dtype := m.dtype, flat := m.flat }

/-- 2d scalar field handed to `Colormap.shade` (exact values; NaN entries,
which are always masked out by the source, are not represented). -/
structure Arr2 where
  m : Nat
  n : Nat
  dat : Nat → Nat → ℚ

/-- Flatten a 2d field in C order. -/
def Arr2.entries (f : Arr2) : List ℚ :=
  (List.range f.m).flatMap fun i => (List.range f.n).map fun j => f.dat i j

/-- Minimum of a rational list (`min()` of a non-empty masked field; default
`0` only reachable for an empty selection, where the source errors). -/
def listMinQ (l : List ℚ) : ℚ := l.foldl min (l.headD 0)

/-- Maximum of a rational list (see `listMinQ`). -/
def listMaxQ (l : List ℚ) : ℚ := l.foldl max (l.headD 0)

/-- The entries of the field that survive the mask of `Colormap.shade`
(everything except the `gap` sentinel when one is given). -/
def maskedEntries (f : Arr2) (gap : Option ℚ) : List ℚ :=
  match gap with
  | none => f.entries
  | some gv => f.entries.filter fun x => decide (x ≠ gv)

/-- The `(lo, hi)` pair used by `Colormap.shade` after the degenerate-span
widening: bounds default to masked min/max, and when `delta * 1e8 <= avg`
the range is replaced by `(lo - avg/2, hi + avg/2)`. -/
def shadeLoHi (f : Arr2) (bounds : Option (ℚ × ℚ)) (gap : Option ℚ) : ℚ × ℚ :=
  let lohi : ℚ × ℚ :=
    match bounds with
    | none => (listMinQ (maskedEntries f gap), listMaxQ (maskedEntries f gap))
    | some b => (min b.1 b.2, max b.1 b.2)
  let delta := lohi.2 - lohi.1
  let avg := (1/2) * (lohi.2 + lohi.1)
  if delta * 100000000 ≤ avg then (lohi.1 - (1/2) * avg, lohi.2 + (1/2) * avg)
  else lohi

/-- `np.round`: round half to even. -/
def roundHalfEven (x : ℚ) : ℤ :=
  let f := ⌊x⌋
  if x - f < 1/2 then f
  else if x - f > 1/2 then f + 1
  else if f % 2 = 0 then f else f + 1

/-- Value-to-colour-index mapping of `Colormap.shade`:
`round(clip((x - lo) / (hi - lo), 0, 1) * (N - 1))`. The division is by
`hi - lo`; in the source a zero denominator produces a NaN division, here
the total rational division returns `0`. -/
def shadeIdx (N : Nat) (lo hi x : ℚ) : ℤ :=
  roundHalfEven (min 1 (max ((x - lo) / (hi - lo)) 0) * ((N : ℚ) - 1))

/-- Colour triple. Components are the exact real values of the float
triples flowing through `_colormap.py`; in Msh space the components are
`(M, s, h)`. -/
structure V3 where
  x : ℝ
  y : ℝ
  z : ℝ
deriving Inhabited

attribute [ext] V3

/-- The return expression of `Colormap._interpolate_msh`:
`(1.0 - frac) * lo + frac * hi`. -/
noncomputable def lerpV (frac : ℝ) (lo hi : V3) : V3 :=
  ⟨(1 - frac) * lo.x + frac * hi.x,
   (1 - frac) * lo.y + frac * hi.y,
   (1 - frac) * lo.z + frac * hi.z⟩

namespace Colormap

/-- `_EPS = 216 / 24389`. -/
noncomputable def EPS : ℝ := 216 / 24389

/-- `_KAPPA = 24389 / 27`. -/
noncomputable def KAPPA : ℝ := 24389 / 27

/-- Truncation toward zero: python `int()` applied to a float. -/
noncomputable def truncR (a : ℝ) : ℤ := if 0 ≤ a then ⌊a⌋ else ⌈a⌉

/-- Four-quadrant arctangent, `np.arctan2(y, x)`. -/
noncomputable def atan2 (b a : ℝ) : ℝ :=
  if 0 < a then Real.arctan (b / a)
  else if a < 0 ∧ 0 ≤ b then Real.arctan (b / a) + Real.pi
  else if a < 0 ∧ b < 0 then Real.arctan (b / a) - Real.pi
  else if a = 0 ∧ 0 < b then Real.pi / 2
  else if a = 0 ∧ b < 0 then -(Real.pi / 2)
  else 0

/-- `Colormap._msh2lab`: spherical-to-Cartesian reparametrization. -/
noncomputable def msh2lab (msh : V3) : V3 :=
  ⟨msh.x * Real.cos msh.y,
   msh.x * Real.sin msh.y * Real.cos msh.z,
   msh.x * Real.sin msh.y * Real.sin msh.z⟩

/-- `Colormap._lab2msh`: magnitude / saturation angle / hue angle. -/
noncomputable def lab2msh (lab : V3) : V3 :=
  let M := Real.sqrt (lab.x ^ 2 + lab.y ^ 2 + lab.z ^ 2)
  ⟨M,
   if M > 1 / 100000000 then Real.arccos (lab.x / M) else 0,
   if M > 1 / 100000000 then atan2 lab.z lab.y else 0⟩

/-- `Colormap._lab2xyz` with the default D65 reference white. -/
noncomputable def lab2xyz (lab : V3) : V3 :=
  let f_x := (lab.x + 16) / 116 + lab.y / 500
  let f_z := (lab.x + 16) / 116 - lab.z / 200
  ⟨(if f_x ^ 3 > EPS then f_x ^ 3 else (116 * f_x - 16) / KAPPA) * 0.95047,
   (if lab.x > KAPPA * EPS then ((lab.x + 16) / 116) ^ 3 else lab.x / KAPPA) * 1.00000,
   (if f_z ^ 3 > EPS then f_z ^ 3 else (116 * f_z - 16) / KAPPA) * 1.08883⟩

/-- `Colormap._xyz2lab` with the default D65 reference white. -/
noncomputable def xyz2lab (xyz : V3) : V3 :=
  let fc : ℝ → ℝ → ℝ := fun v w =>
    if v / w > EPS then (v / w) ^ ((1 : ℝ) / 3) else (KAPPA * v / w + 16) / 116
  let f0 := fc xyz.x 0.95047
  let f1 := fc xyz.y 1.00000
  let f2 := fc xyz.z 1.08883
  ⟨116 * f1 - 16, 500 * (f0 - f1), 200 * (f1 - f2)⟩

/-- sRGB companding of one linear component inside `Colormap._xyz2rgb`:
`np.where(rgb_lin > 0.0031308, rgb_lin ** (1 / 2.4) * 1.0555 - 0.0555,
rgb_lin * 12.92)`. -/
noncomputable def compand (u : ℝ) : ℝ :=
  if u > 0.0031308 then u ^ ((1 : ℝ) / 2.4) * 1.0555 - 0.0555 else u * 12.92

/-- Inverse companding of one component inside `Colormap._rgb2xyz`. -/
noncomputable def uncompand (u : ℝ) : ℝ :=
  if u > 0.04045 then ((u + 0.0555) / 1.0555) ^ (2.4 : ℝ) else u / 12.92

/-- `np.clip(rgb, 0., 1.)` on one component. -/
noncomputable def clip01 (u : ℝ) : ℝ := min 1 (max u 0)

/-- `Colormap._xyz2rgb`: D65 matrix, companding, clip to `[0, 1]`. -/
noncomputable def xyz2rgb (xyz : V3) : V3 :=
  let r_lin := 3.240969942 * xyz.x - 1.537383178 * xyz.y - 0.498610760 * xyz.z
  let g_lin := -0.969243636 * xyz.x + 1.875967502 * xyz.y + 0.041555057 * xyz.z
  let b_lin := 0.055630080 * xyz.x - 0.203976959 * xyz.y + 1.056971514 * xyz.z
  ⟨clip01 (compand r_lin), clip01 (compand g_lin), clip01 (compand b_lin)⟩

/-- `Colormap._rgb2xyz`: inverse companding then D65 matrix. -/
noncomputable def rgb2xyz (rgb : V3) : V3 :=
  let r := uncompand rgb.x
  let g := uncompand rgb.y
  let b := uncompand rgb.z
  ⟨0.412390799 * r + 0.357584339 * g + 0.180480788 * b,
   0.212639006 * r + 0.715168679 * g + 0.072192315 * b,
   0.019330819 * r + 0.119194780 * g + 0.950532152 * b⟩

/-- `colorsys.hsv_to_rgb` (python standard library collaborator of
`Colormap._hsv2rgb`). -/
noncomputable def hsvToRgb (h s v : ℝ) : V3 :=
  if s = 0 then ⟨v, v, v⟩
  else
    let i : ℤ := truncR (h * 6)
    let f := h * 6 - i
    let p := v * (1 - s)
    let q := v * (1 - s * f)
    let t := v * (1 - s * (1 - f))
    let im := i % 6
    if im = 0 then ⟨v, t, p⟩
    else if im = 1 then ⟨q, v, p⟩
    else if im = 2 then ⟨p, v, t⟩
    else if im = 3 then ⟨p, q, v⟩
    else if im = 4 then ⟨t, p, q⟩
    else ⟨v, p, t⟩

/-- `colorsys._v` helper of `colorsys.hls_to_rgb`. -/
noncomputable def hlsV (m1 m2 hue : ℝ) : ℝ :=
  let hue' := hue - ⌊hue⌋
  if hue' < 1 / 6 then m1 + (m2 - m1) * hue' * 6
  else if hue' < 1 / 2 then m2
  else if hue' < 2 / 3 then m1 + (m2 - m1) * (2 / 3 - hue') * 6
  else m1

/-- `colorsys.hls_to_rgb` (python standard library collaborator of
`Colormap._hsl2rgb`). -/
noncomputable def hlsToRgb (h l s : ℝ) : V3 :=
  if s = 0 then ⟨l, l, l⟩
  else
    let m2 := if l ≤ 1 / 2 then l * (1 + s) else l + s - l * s
    let m1 := 2 * l - m2
    ⟨hlsV m1 m2 (h + 1 / 3), hlsV m1 m2 h, hlsV m1 m2 (h - 1 / 3)⟩

/-- `Colormap._hsv2rgb`. -/
noncomputable def hsv2rgb (hsv : V3) : V3 := hsvToRgb (hsv.x / 360) hsv.y hsv.z

/-- `Colormap._hsl2rgb` (note the argument swap of the source). -/
noncomputable def hsl2rgb (hsl : V3) : V3 := hlsToRgb (hsl.x / 360) hsl.z hsl.y

/-- `Colormap._lab2rgb`. -/
noncomputable def lab2rgb (lab : V3) : V3 := xyz2rgb (lab2xyz lab)

/-- `Colormap._msh2rgb`. -/
noncomputable def msh2rgb (msh : V3) : V3 := lab2rgb (msh2lab msh)

/-- `Colormap._rgb2msh`. -/
noncomputable def rgb2msh (rgb : V3) : V3 := lab2msh (xyz2lab (rgb2xyz rgb))

/-- `Colormap._hsv2msh`. -/
noncomputable def hsv2msh (hsv : V3) : V3 := rgb2msh (hsv2rgb hsv)

/-- `Colormap._hsl2msh`. -/
noncomputable def hsl2msh (hsl : V3) : V3 := rgb2msh (hsl2rgb hsl)

/-- `Colormap._xyz2msh`. -/
noncomputable def xyz2msh (xyz : V3) : V3 := lab2msh (xyz2lab xyz)

/-- `adjust_hue` of `Colormap._interpolate_msh`: hue assigned to the
unsaturated colour, derived from the saturated one plus a spin correction
whose sign flips when the saturated hue is below `-pi/3`. -/
noncomputable def adjustHue (mshSat mshUnsat : V3) : ℝ :=
  if mshSat.x ≥ mshUnsat.x then mshSat.z
  else
    let hSpin := mshSat.y / Real.sin mshSat.y *
      Real.sqrt (mshUnsat.x ^ 2 - mshSat.x ^ 2) / mshSat.x
    let hSpin' := if mshSat.z < -(Real.pi / 3) then -hSpin else hSpin
    mshSat.z + hSpin'

/-- `Colormap._interpolate_msh`: adaptive perceptual interpolation in Msh
space. -/
noncomputable def interpolateMsh (frac : ℝ) (low high : V3) : V3 :=
  let step1 : V3 × V3 × ℝ :=
    if low.y > 0.05 ∧ high.y > 0.05 ∧ |low.z - high.z| > Real.pi / 3 then
      let M_mid := max (max low.x high.x) 88
      if frac < 0.5 then (low, ⟨M_mid, 0, 0⟩, frac * 2)
      else (⟨M_mid, 0, 0⟩, high, 2 * frac - 1)
    else (low, high, frac)
  let lo := step1.1
  let hi := step1.2.1
  let f := step1.2.2
  let step2 : V3 × V3 :=
    if lo.y < 0.05 ∧ hi.y > 0.05 then ({ lo with z := adjustHue hi lo }, hi)
    else if lo.y > 0.05 ∧ hi.y < 0.05 then (lo, { hi with z := adjustHue lo hi })
    else (lo, hi)
  lerpV f step2.1 step2.2

/-- `np.linspace(0, 1, N)`. -/
noncomputable def linspace01 (N : Nat) : List ℝ :=
  if N = 1 then [0]
  else (List.range N).map fun (i : Nat) => (i : ℝ) / ((N : ℝ) - 1)

/-- Names accepted as colour models by `Colormap.from_range`. -/
def validModels : List String := ["rgb", "hsv", "hsl", "xyz", "lab", "msh"]

/-- The `toMsh` conversion dispatched on the lower-cased model name. -/
noncomputable def toMshFn (ml : String) (c : V3) : V3 :=
  if ml = "rgb" then rgb2msh c
  else if ml = "hsv" then hsv2msh c
  else if ml = "hsl" then hsl2msh c
  else if ml = "xyz" then xyz2msh c
  else if ml = "lab" then lab2msh c
  else c

/-- `np.any(low_high < 0)`. -/
def anyLt0 (low high : V3) : Prop :=
  low.x < 0 ∨ low.y < 0 ∨ low.z < 0 ∨ high.x < 0 ∨ high.y < 0 ∨ high.z < 0

/-- `np.any(low_high > 1)` (rgb bound check). -/
def anyGtRgb (low high : V3) : Prop :=
  low.x > 1 ∨ low.y > 1 ∨ low.z > 1 ∨ high.x > 1 ∨ high.y > 1 ∨ high.z > 1

/-- `np.any(low_high > [360, 1, 1])` (hsv / hsl bound check). -/
def anyGtHs (low high : V3) : Prop :=
  low.x > 360 ∨ low.y > 1 ∨ low.z > 1 ∨ high.x > 360 ∨ high.y > 1 ∨ high.z > 1

/-- The `out_of_bounds` condition of `Colormap.from_range` per model. -/
def outOfBounds (ml : String) (low high : V3) : Prop :=
  if ml = "rgb" then anyLt0 low high ∨ anyGtRgb low high
  else if ml = "hsv" then anyLt0 low high ∨ anyGtHs low high
  else if ml = "hsl" then anyLt0 low high ∨ anyGtHs low high
  else if ml = "lab" then low.x < 0 ∨ high.x < 0
  else False

noncomputable instance (ml : String) (low high : V3) :
    Decidable (outOfBounds ml low high) := by
  unfold outOfBounds anyLt0 anyGtRgb anyGtHs
  infer_instance

/-- `Colormap.from_range`: validate the model name and the bounds, convert
both endpoints to Msh, then interpolate `N` evenly spaced fractions and
convert each point back to RGB. The resulting colour list is the `colors`
of the returned Colormap. -/
noncomputable def from_range (low high : V3) (N : Nat) (model : String) :
    Except PyErr (List V3) :=
  let ml := strLower model
  if ml ∉ validModels then .error .valueError
  else if outOfBounds ml low high then .error .valueError
  else
    let lo := toMshFn ml low
    let hi := toMshFn ml high
    .ok ((linspace01 N).map fun frac => msh2rgb (interpolateMsh frac lo hi))

/-- Colour list of a `from_range` call that did not raise (empty list
otherwise). -/
noncomputable def colorsOf (e : Except PyErr (List V3)) : List V3 := e.toOption.getD []

/-- The unsaturated pivot colour named by the specification for the split
branch of `_interpolate_msh`: `(max(low.M, high.M, 88), 0, 0)`. -/
noncomputable def pivot (low high : V3) : V3 := ⟨max (max low.x high.x) 88, 0, 0⟩

end Colormap

/-! ## Theorems -/

theorem npAllclose_self (a : ℚ) : npAllclose a a := by
  unfold npAllclose
  simp only [sub_self, abs_zero]
  positivity

theorem substVal_eq_find (pairs : List (Int × Int)) (x : Int) :
    substVal pairs x =
      ((pairs.reverse.find? fun p => p.1 == x).map Prod.snd).getD x := by
  induction pairs using List.reverseRecOn with
  | nil => simp [substVal]
  | append_singleton ps p ih =>
    rw [substVal, List.foldl_append]
    simp only [List.foldl_cons, List.foldl_nil, List.reverse_append,
      List.reverse_cons, List.reverse_nil, List.nil_append, List.cons_append]
    by_cases h : x = p.1
    · rw [List.find?_cons_of_pos _ (by simp [h])]
      simp [h]
    · rw [List.find?_cons_of_neg _ (by simp [Ne.symm h])]
      rw [← ih, substVal, if_neg h]

/-- C4: every Grid transform (mirror, flip, scale, clean, rotate, canvas,
add_primitive, substitute, sort, renumber, vicinity_offset) returns a grid
whose comments are the receiver comments with exactly one provenance entry
appended. The receiver is untouched: in this embedding each transform is a
pure function of the receiver value, mirroring the source, which only reads
`self` (copying arrays where needed) and constructs a fresh `Grid`. -/
theorem claim_C4_transform_comments
    (g : Grid) (directions : List String) (reflect : Bool)
    (zoomed rotated : Arr3) (stencil : Nat) (selection : Option (List Int))
    (periodic : Bool) (mask : Nat → Nat → Nat → Bool) (fill : Option Int)
    (inverse : Bool) (cells : Option (Nat × Nat × Nat))
    (offset : Option (Int × Int × Int)) (from_material to_material : List Int)
    (vicinity : Nat) (voffset : Option Int) (trigger : List Int) :
    (g.mirror directions reflect).comments = g.comments ++ [execution_stamp "Grid" "mirror"] ∧
    (g.flip directions).comments = g.comments ++ [execution_stamp "Grid" "flip"] ∧
    (g.scale zoomed).comments = g.comments ++ [execution_stamp "Grid" "scale"] ∧
    (g.clean stencil selection periodic).comments = g.comments ++ [execution_stamp "Grid" "clean"] ∧
    (g.rotate rotated).comments = g.comments ++ [execution_stamp "Grid" "rotate"] ∧
    (g.canvas cells offset fill).comments = g.comments ++ [execution_stamp "Grid" "canvas"] ∧
    (g.add_primitive mask fill inverse).comments = g.comments ++ [execution_stamp "Grid" "add_primitive"] ∧
    (g.substitute from_material to_material).comments = g.comments ++ [execution_stamp "Grid" "substitute"] ∧
    g.sort.comments = g.comments ++ [execution_stamp "Grid" "sort"] ∧
    g.renumber.comments = g.comments ++ [execution_stamp "Grid" "renumber"] ∧
    (g.vicinity_offset vicinity voffset trigger periodic).comments =
      g.comments ++ [execution_stamp "Grid" "vicinity_offset"] :=
  ⟨rfl, rfl, rfl, rfl, rfl, rfl, rfl, rfl, rfl, rfl, rfl⟩

/-- C5: the shape-preserving transforms flip, substitute, renumber, sort and
vicinity_offset keep the cell counts and (exactly, hence within any floating
tolerance) the physical size. -/
theorem claim_C5_shape_preserving
    (g : Grid) (directions : List String)
    (from_material to_material : List Int) (vicinity : Nat)
    (voffset : Option Int) (trigger : List Int) (periodic : Bool) :
    ((g.flip directions).cells = g.cells ∧ (g.flip directions).size = g.size) ∧
    ((g.substitute from_material to_material).cells = g.cells ∧
      (g.substitute from_material to_material).size = g.size) ∧
    (g.renumber.cells = g.cells ∧ g.renumber.size = g.size) ∧
    (g.sort.cells = g.cells ∧ g.sort.size = g.size) ∧
    ((g.vicinity_offset vicinity voffset trigger periodic).cells = g.cells ∧
      (g.vicinity_offset vicinity voffset trigger periodic).size = g.size) :=
  ⟨⟨rfl, rfl⟩, ⟨rfl, rfl⟩, ⟨rfl, rfl⟩, ⟨rfl, rfl⟩, ⟨rfl, rfl⟩⟩

/-- C8: substitute remaps against the original material array: a voxel whose
id appears in `from_material` receives the `to_material` entry of the last
matching pair, any other voxel is unchanged, and in particular
`substitute([a, b], [b, a])` swaps the two ids. -/
theorem claim_C8_substitute_semantics
    (g : Grid) (from_material to_material : List Int) (i j k : Nat) :
    ((g.substitute from_material to_material).material.dat i j k =
      (((from_material.zip to_material).reverse.find?
          fun p => p.1 == g.material.dat i j k).map Prod.snd).getD
        (g.material.dat i j k)) ∧
    (∀ a b : Int, (g.substitute [a, b] [b, a]).material.dat i j k =
      if g.material.dat i j k = a then b
      else if g.material.dat i j k = b then a
      else g.material.dat i j k) := by
  constructor
  · exact substVal_eq_find _ _
  · intro a b
    show substVal _ _ = _
    set x := g.material.dat i j k with hx
    by_cases hxa : x = a <;> by_cases hxb : x = b
    all_goals simp [substVal, hxa, hxb, List.zip]
    all_goals try (split_ifs; all_goals simp_all)

/-- C6: mirroring a 4x4x4 grid along x without reflect appends the reversed
interior minus the two duplicated outer layers (2n - 2 = 6 cells along x)
and recomputes the size so per-cell spacing is preserved. -/
theorem claim_C6_mirror_x_no_reflect (g : Grid) (h : g.cells = (4, 4, 4)) :
    (g.mirror ["x"] false).cells = (6, 4, 4) ∧
    (g.mirror ["x"] false).size.1 / 6 = g.size.1 / 4 ∧
    (g.mirror ["x"] false).size.2.1 / 4 = g.size.2.1 / 4 ∧
    (g.mirror ["x"] false).size.2.2 / 4 = g.size.2.2 / 4 := by
  have h' := h
  simp only [Grid.cells, Prod.mk.injEq] at h'
  obtain ⟨h1, h2, h3⟩ := h'
  have hx : ("x" : String) ∈ ["x"] := by decide
  have hy : ("y" : String) ∉ ["x"] := by decide
  have hz : ("z" : String) ∉ ["x"] := by decide
  refine ⟨?_, ?_, ?_, ?_⟩
  · simp [Grid.mirror, Grid.cells, Arr3.mirrorAxis1, hx, hy, hz, h1, h2, h3]
  · simp only [Grid.mirror, Arr3.mirrorAxis1, hx, hy, hz, if_pos, if_neg,
      if_true, if_false, h1]
    norm_num
  · simp only [Grid.mirror, Arr3.mirrorAxis1, hx, hy, hz, if_pos, if_neg,
      if_true, if_false, h2]
    norm_num
  · simp only [Grid.mirror, Arr3.mirrorAxis1, hx, hy, hz, if_pos, if_neg,
      if_true, if_false, h3]
    norm_num

/-- Witness for C6 at a concrete 4x4x4 grid. -/
theorem claim_C6_witness :
    (Grid.cells ⟨⟨4, 4, 4, fun _ _ _ => 0⟩, (1, 1, 1), (0, 0, 0), []⟩ = (4, 4, 4)) ∧
    ((Grid.mirror ⟨⟨4, 4, 4, fun _ _ _ => 0⟩, (1, 1, 1), (0, 0, 0), []⟩ ["x"] false).cells = (6, 4, 4) ∧
     (Grid.mirror ⟨⟨4, 4, 4, fun _ _ _ => 0⟩, (1, 1, 1), (0, 0, 0), []⟩ ["x"] false).size.1 / 6 =
       (1 : ℚ) / 4 ∧
     (Grid.mirror ⟨⟨4, 4, 4, fun _ _ _ => 0⟩, (1, 1, 1), (0, 0, 0), []⟩ ["x"] false).size.2.1 / 4 =
       (1 : ℚ) / 4 ∧
     (Grid.mirror ⟨⟨4, 4, 4, fun _ _ _ => 0⟩, (1, 1, 1), (0, 0, 0), []⟩ ["x"] false).size.2.2 / 4 =
       (1 : ℚ) / 4) :=
  ⟨rfl, claim_C6_mirror_x_no_reflect ⟨⟨4, 4, 4, fun _ _ _ => 0⟩, (1, 1, 1), (0, 0, 0), []⟩ rfl⟩

/-- C7: canvas at the own cell counts with the default zero offset returns a
grid equal to the receiver under the source equality test. -/
theorem claim_C7_canvas_identity (g : Grid) (h1 : 0 < g.material.n1)
    (h2 : 0 < g.material.n2) (h3 : 0 < g.material.n3) :
    Grid.eq (g.canvas (some g.cells) none none) g := by
  have e1 : (g.material.n1 : ℚ) ≠ 0 := (Nat.cast_pos.mpr h1).ne'
  have e2 : (g.material.n2 : ℚ) ≠ 0 := (Nat.cast_pos.mpr h2).ne'
  have e3 : (g.material.n3 : ℚ) ≠ 0 := (Nat.cast_pos.mpr h3).ne'
  refine ⟨?_, ?_, ?_, ?_, ?_, ?_, ?_, ?_⟩
  · have : (g.canvas (some g.cells) none none).size.1 = g.size.1 := by
      simp [Grid.canvas, Grid.cells]
      exact div_mul_cancel₀ _ e1
    rw [this]; exact npAllclose_self _
  · have : (g.canvas (some g.cells) none none).size.2.1 = g.size.2.1 := by
      simp [Grid.canvas, Grid.cells]
      exact div_mul_cancel₀ _ e2
    rw [this]; exact npAllclose_self _
  · have : (g.canvas (some g.cells) none none).size.2.2 = g.size.2.2 := by
      simp [Grid.canvas, Grid.cells]
      exact div_mul_cancel₀ _ e3
    rw [this]; exact npAllclose_self _
  · have : (g.canvas (some g.cells) none none).origin.1 = g.origin.1 := by
      simp [Grid.canvas]
    rw [this]; exact npAllclose_self _
  · have : (g.canvas (some g.cells) none none).origin.2.1 = g.origin.2.1 := by
      simp [Grid.canvas]
    rw [this]; exact npAllclose_self _
  · have : (g.canvas (some g.cells) none none).origin.2.2 = g.origin.2.2 := by
      simp [Grid.canvas]
    rw [this]; exact npAllclose_self _
  · rfl
  · intro i hi j hj k hk
    simp only [Grid.canvas, Grid.cells, canvasRange, clipZ, Option.getD_none,
      Option.getD_some] at hi hj hk ⊢
    rw [if_pos]
    · congr 1 <;> try congr 1
      all_goals omega
    · refine ⟨?_, ?_, ?_, ?_, ?_, ?_⟩ <;> omega

/-- Witness for C7 at a concrete 1x1x1 grid. -/
theorem claim_C7_witness :
    0 < (1 : Nat) ∧
    Grid.eq (Grid.canvas ⟨⟨1, 1, 1, fun _ _ _ => 7⟩, (2, 3, 5), (0, 0, 0), []⟩
      (some (Grid.cells ⟨⟨1, 1, 1, fun _ _ _ => 7⟩, (2, 3, 5), (0, 0, 0), []⟩)) none none)
      ⟨⟨1, 1, 1, fun _ _ _ => 7⟩, (2, 3, 5), (0, 0, 0), []⟩ :=
  ⟨Nat.one_pos,
   claim_C7_canvas_identity ⟨⟨1, 1, 1, fun _ _ _ => 7⟩, (2, 3, 5), (0, 0, 0), []⟩
     Nat.one_pos Nat.one_pos Nat.one_pos⟩

/-- C10: the material setter rejects non-3d arrays with ValueError; a float
array whose entries all equal their integer cast is stored as an int-dtype
array with identical values. The private copy of the source (`np.copy`) is
inherent to the value semantics of this embedding. -/
theorem claim_C10_material_setter :
    (∀ m : NpArray, m.shape.length ≠ 3 → material_setter m = .error .valueError) ∧
    (∀ m : NpArray, m.shape.length = 3 → m.dtype = .floatT → m.allIntegral = true →
      material_setter m = .ok m.intCast ∧ m.intCast.dtype = .intT ∧
      ∀ i < m.shape.prod, m.intCast.flat i = m.flat i) := by
  constructor
  · intro m hm
    simp [material_setter, hm]
  · intro m hm hf hint
    refine ⟨?_, rfl, ?_⟩
    · simp [material_setter, hm, hf, hint]
    · intro i hi
      have h := List.all_eq_true.mp hint i (List.mem_range.mpr hi)
      have h' : m.flat i = ((truncQ (m.flat i) : ℤ) : ℚ) := of_decide_eq_true h
      simpa [NpArray.intCast] using h'.symm

/-- Witness for C10: a 2d int array is rejected, a 3d all-integral float
array is stored as ints. -/
theorem claim_C10_witness :
    material_setter ⟨[2, 2], .intT, fun _ => 0⟩ = .error .valueError ∧
    material_setter ⟨[1, 1, 1], .floatT, fun _ => 2⟩ =
      .ok (NpArray.intCast ⟨[1, 1, 1], .floatT, fun _ => 2⟩) :=
  ⟨claim_C10_material_setter.1 ⟨[2, 2], .intT, fun _ => 0⟩ (by decide),
   (claim_C10_material_setter.2 ⟨[1, 1, 1], .floatT, fun _ => 2⟩ rfl rfl (by decide)).1⟩

theorem foldl_min_const (l : List ℚ) (v : ℚ) (h : ∀ x ∈ l, x = v) :
    l.foldl min v = v := by
  induction l with
  | nil => rfl
  | cons y ys ih =>
    rw [List.foldl_cons, h y (List.mem_cons_self _ _), min_self]
    exact ih fun x hx => h x (List.mem_cons_of_mem _ hx)

theorem foldl_max_const (l : List ℚ) (v : ℚ) (h : ∀ x ∈ l, x = v) :
    l.foldl max v = v := by
  induction l with
  | nil => rfl
  | cons y ys ih =>
    rw [List.foldl_cons, h y (List.mem_cons_self _ _), max_self]
    exact ih fun x hx => h x (List.mem_cons_of_mem _ hx)

theorem listMinQ_const (l : List ℚ) (v : ℚ) (hne : l ≠ []) (h : ∀ x ∈ l, x = v) :
    listMinQ l = v := by
  cases l with
  | nil => exact absurd rfl hne
  | cons y ys =>
    have hy : y = v := h y (List.mem_cons_self _ _)
    rw [listMinQ, List.headD_cons, List.foldl_cons, hy, min_self]
    exact foldl_min_const ys v fun x hx => h x (List.mem_cons_of_mem _ hx)

theorem listMaxQ_const (l : List ℚ) (v : ℚ) (hne : l ≠ []) (h : ∀ x ∈ l, x = v) :
    listMaxQ l = v := by
  cases l with
  | nil => exact absurd rfl hne
  | cons y ys =>
    have hy : y = v := h y (List.mem_cons_self _ _)
    rw [listMaxQ, List.headD_cons, List.foldl_cons, hy, max_self]
    exact foldl_max_const ys v fun x hx => h x (List.mem_cons_of_mem _ hx)

theorem entries_const (f : Arr2) (v : ℚ) (h : ∀ i < f.m, ∀ j < f.n, f.dat i j = v) :
    ∀ x ∈ f.entries, x = v := by
  intro x hx
  simp only [Arr2.entries, List.mem_flatMap, List.mem_map, List.mem_range] at hx
  obtain ⟨i, hi, j, hj, rfl⟩ := hx
  exact h i hi j hj

theorem entries_ne_nil (f : Arr2) (hm : 0 < f.m) (hn : 0 < f.n) :
    f.entries ≠ [] := by
  refine List.ne_nil_of_mem (a := f.dat 0 0) ?_
  simp only [Arr2.entries, List.mem_flatMap, List.mem_map, List.mem_range]
  exact ⟨0, hm, 0, hn, rfl⟩

/-- C3 (amended): on a zero-span field with default bounds the widening rule
fires exactly when `0 <= value`; the value-to-index denominator is nonzero
when the common value is positive, but remains zero when the value is
negative (no widening) and also when it is zero (widening fires but widens
by nothing, see the counterexample). -/
theorem claim_C3_zero_span (f : Arr2) (v : ℚ) (hm : 0 < f.m) (hn : 0 < f.n)
    (hconst : ∀ i < f.m, ∀ j < f.n, f.dat i j = v) :
    (0 < v → shadeLoHi f none none = (v - (1/2) * v, v + (1/2) * v) ∧
      (v + (1/2) * v) - (v - (1/2) * v) ≠ 0) ∧
    (v < 0 → shadeLoHi f none none = (v, v)) := by
  have hne : f.entries ≠ [] := entries_ne_nil f hm hn
  have hall : ∀ x ∈ f.entries, x = v := entries_const f v hconst
  have hmin : listMinQ (maskedEntries f none) = v := listMinQ_const _ v hne hall
  have hmax : listMaxQ (maskedEntries f none) = v := listMaxQ_const _ v hne hall
  constructor
  · intro hv
    constructor
    · rw [shadeLoHi, hmin, hmax, if_pos (by nlinarith)]
      simp only [Prod.mk.injEq]
      constructor <;> ring
    · intro hcontra
      apply hv.ne'
      linarith
  · intro hv
    rw [shadeLoHi, hmin, hmax, if_neg (by nlinarith)]

/-- Witness for C3 at a concrete 2x2 all-ones field. -/
theorem claim_C3_witness :
    (0 : ℚ) < 1 ∧
    (shadeLoHi ⟨2, 2, fun _ _ => 1⟩ none none = (1 - (1/2) * 1, 1 + (1/2) * 1) ∧
      ((1 : ℚ) + (1/2) * 1) - (1 - (1/2) * 1) ≠ 0) :=
  ⟨by norm_num,
   (claim_C3_zero_span ⟨2, 2, fun _ _ => 1⟩ 1 (by decide) (by decide)
     (fun _ _ _ _ => rfl)).1 (by norm_num)⟩

/-- C3 counterexample: on the all-zero field the widening rule does fire
(`0 * 1e8 <= 0`) yet hi and lo stay `0`, so the value-to-colour-index
mapping `(field - lo) / (hi - lo)` divides by zero, contradicting the claim
that it never does. -/
theorem claim_C3_counterexample :
    shadeLoHi ⟨2, 2, fun _ _ => 0⟩ none none = (0, 0) := by
  have hne : (Arr2.mk 2 2 fun _ _ => 0).entries ≠ [] :=
    entries_ne_nil _ (by norm_num) (by norm_num)
  have hall : ∀ x ∈ (Arr2.mk 2 2 fun _ _ => 0).entries, x = 0 :=
    entries_const _ 0 fun _ _ _ _ => rfl
  have hmin : listMinQ (maskedEntries ⟨2, 2, fun _ _ => 0⟩ none) = 0 :=
    listMinQ_const _ 0 hne hall
  have hmax : listMaxQ (maskedEntries ⟨2, 2, fun _ _ => 0⟩ none) = 0 :=
    listMaxQ_const _ 0 hne hall
  rw [shadeLoHi, hmin, hmax, if_pos (by norm_num)]
  norm_num

/-- C2 (amended): when both endpoints are saturated (`s > 0.05`) and the hue
distance exceeds `pi/3`, the path is split through the pivot
`(max(low.M, high.M, 88), 0, 0)` with the local fraction rescaled as
claimed, except that the pivot enters the linear interpolation with an
ADJUSTED hue (`adjust_hue` of the saturated endpoint against the pivot)
rather than hue `0`. -/
theorem claim_C2_split_interpolation (low high : V3) (frac : ℝ)
    (h1 : low.y > 0.05) (h2 : high.y > 0.05)
    (h3 : |low.z - high.z| > Real.pi / 3) :
    (frac < 0.5 →
      Colormap.interpolateMsh frac low high =
        lerpV (frac * 2) low
          ⟨(Colormap.pivot low high).x, 0,
            Colormap.adjustHue low (Colormap.pivot low high)⟩) ∧
    (¬ frac < 0.5 →
      Colormap.interpolateMsh frac low high =
        lerpV (2 * frac - 1)
          ⟨(Colormap.pivot low high).x, 0,
            Colormap.adjustHue high (Colormap.pivot low high)⟩ high) := by
  constructor
  · intro hf
    simp only [Colormap.interpolateMsh, Colormap.pivot]
    rw [if_pos ⟨h1, h2, h3⟩, if_pos hf]
    rw [if_neg (fun hcon => absurd hcon.2 (by norm_num)), if_pos ⟨h1, by norm_num⟩]
  · intro hf
    simp only [Colormap.interpolateMsh, Colormap.pivot]
    rw [if_pos ⟨h1, h2, h3⟩, if_neg hf]
    rw [if_pos ⟨by norm_num, h2⟩]

theorem pi_div_three_lt_hue_gap :
    |((⟨90, 1, 2⟩ : V3)).z - ((⟨90, 1, 0⟩ : V3)).z| > Real.pi / 3 := by
  rw [show ((⟨90, 1, 2⟩ : V3)).z - ((⟨90, 1, 0⟩ : V3)).z = 2 from by norm_num]
  rw [show |(2 : ℝ)| = 2 from by norm_num]
  linarith [Real.pi_lt_four]

/-- Witness for C2 at low = (90,1,2), high = (90,1,0), frac = 1/4. -/
theorem claim_C2_witness :
    ((⟨90, 1, 2⟩ : V3).y > 0.05 ∧ (⟨90, 1, 0⟩ : V3).y > 0.05 ∧
      |(⟨90, 1, 2⟩ : V3).z - (⟨90, 1, 0⟩ : V3).z| > Real.pi / 3) ∧
    (((1/4 : ℝ) < 0.5 →
      Colormap.interpolateMsh (1/4) ⟨90, 1, 2⟩ ⟨90, 1, 0⟩ =
        lerpV ((1/4) * 2) ⟨90, 1, 2⟩
          ⟨(Colormap.pivot ⟨90, 1, 2⟩ ⟨90, 1, 0⟩).x, 0,
            Colormap.adjustHue ⟨90, 1, 2⟩ (Colormap.pivot ⟨90, 1, 2⟩ ⟨90, 1, 0⟩)⟩) ∧
    (¬ (1/4 : ℝ) < 0.5 →
      Colormap.interpolateMsh (1/4) ⟨90, 1, 2⟩ ⟨90, 1, 0⟩ =
        lerpV (2 * (1/4) - 1)
          ⟨(Colormap.pivot ⟨90, 1, 2⟩ ⟨90, 1, 0⟩).x, 0,
            Colormap.adjustHue ⟨90, 1, 0⟩ (Colormap.pivot ⟨90, 1, 2⟩ ⟨90, 1, 0⟩)⟩
          ⟨90, 1, 0⟩)) :=
  ⟨⟨by norm_num, by norm_num, pi_div_three_lt_hue_gap⟩,
   claim_C2_split_interpolation ⟨90, 1, 2⟩ ⟨90, 1, 0⟩ (1/4) (by norm_num) (by norm_num)
     pi_div_three_lt_hue_gap⟩

/-- C2 counterexample: at low = (90,1,2), high = (90,1,0), frac = 1/4 (both
saturations exceed 0.05 and the hue distance 2 exceeds pi/3) the code
returns Msh (90, 1/2, 2) — the pivot carries the adjusted hue 2 — whereas
the claimed interpolation of low with the pivot (90, 0, 0) at local
fraction 1/2 is (90, 1/2, 1). -/
theorem claim_C2_counterexample :
    Colormap.interpolateMsh (1/4) ⟨90, 1, 2⟩ ⟨90, 1, 0⟩ ≠
      lerpV (2 * (1/4)) ⟨90, 1, 2⟩ ⟨max (max 90 90) 88, 0, 0⟩ := by
  have heval : Colormap.interpolateMsh (1/4) ⟨90, 1, 2⟩ ⟨90, 1, 0⟩ =
      (⟨90, 1/2, 2⟩ : V3) := by
    simp only [Colormap.interpolateMsh]
    rw [if_pos ⟨by norm_num, by norm_num, pi_div_three_lt_hue_gap⟩,
      if_pos (by norm_num : (1/4 : ℝ) < 0.5)]
    rw [if_neg (fun hcon => absurd hcon.2 (by norm_num)),
      if_pos ⟨by norm_num, by norm_num⟩]
    simp only [Colormap.adjustHue, lerpV]
    rw [if_pos (by norm_num : ((⟨90, 1, 2⟩ : V3)).x ≥ max (max (90:ℝ) 90) 88)]
    simp only [V3.mk.injEq]
    norm_num
  rw [heval]
  intro hcon
  have : (2 : ℝ) = (1 - 2 * (1/4)) * 2 + 2 * (1/4) * 0 := congrArg V3.z hcon
  norm_num at this

/-- C9: from_range raises ValueError for every model name outside
rgb/hsv/hsl/xyz/lab/msh (case-insensitive) and whenever the bounds violate
the legal range of the model: any component outside [0,1] for rgb, outside
[0,360]x[0,1]x[0,1] for hsv or hsl, or a negative first component for lab;
the error is returned before any colour list is built. -/
theorem claim_C9_from_range_validation :
    (∀ (model : String) (low high : V3) (N : Nat),
      strLower model ∉ Colormap.validModels →
      Colormap.from_range low high N model = .error .valueError) ∧
    (∀ (model : String) (low high : V3) (N : Nat),
      strLower model = "rgb" →
      Colormap.anyLt0 low high ∨ Colormap.anyGtRgb low high →
      Colormap.from_range low high N model = .error .valueError) ∧
    (∀ (model : String) (low high : V3) (N : Nat),
      strLower model = "hsv" ∨ strLower model = "hsl" →
      Colormap.anyLt0 low high ∨ Colormap.anyGtHs low high →
      Colormap.from_range low high N model = .error .valueError) ∧
    (∀ (model : String) (low high : V3) (N : Nat),
      strLower model = "lab" → low.x < 0 ∨ high.x < 0 →
      Colormap.from_range low high N model = .error .valueError) := by
  refine ⟨?_, ?_, ?_, ?_⟩
  · intro model low high N hml
    simp only [Colormap.from_range]
    rw [if_pos hml]
  · intro model low high N hml hb
    simp only [Colormap.from_range]
    rw [hml, if_neg (by decide),
      if_pos (show Colormap.outOfBounds "rgb" low high from hb)]
  · intro model low high N hml hb
    rcases hml with hml | hml
    · simp only [Colormap.from_range]
      rw [hml, if_neg (by decide),
        if_pos (show Colormap.outOfBounds "hsv" low high from hb)]
    · simp only [Colormap.from_range]
      rw [hml, if_neg (by decide),
        if_pos (show Colormap.outOfBounds "hsl" low high from hb)]
  · intro model low high N hml hb
    simp only [Colormap.from_range]
    rw [hml, if_neg (by decide),
      if_pos (show Colormap.outOfBounds "lab" low high from hb)]

/-- Witness for C9: an unknown model, an rgb component above 1, a negative
hsv component, an hsl hue above 360 and a negative lab L all raise. -/
theorem claim_C9_witness :
    (strLower "foo" ∉ Colormap.validModels) ∧
    Colormap.from_range ⟨0, 0, 0⟩ ⟨0, 0, 0⟩ 2 "foo" = .error .valueError ∧
    Colormap.from_range ⟨2, 0, 0⟩ ⟨0, 0, 0⟩ 2 "RGB" = .error .valueError ∧
    Colormap.from_range ⟨-1, 0, 0⟩ ⟨0, 0, 0⟩ 2 "hsv" = .error .valueError ∧
    Colormap.from_range ⟨400, 0, 0⟩ ⟨0, 0, 0⟩ 2 "hsl" = .error .valueError ∧
    Colormap.from_range ⟨-1, 0, 0⟩ ⟨0, 0, 0⟩ 2 "lab" = .error .valueError :=
  ⟨by decide,
   claim_C9_from_range_validation.1 "foo" _ _ 2 (by decide),
   claim_C9_from_range_validation.2.1 "RGB" _ _ 2 (by decide)
     (Or.inr (Or.inl (by norm_num))),
   claim_C9_from_range_validation.2.2.1 "hsv" _ _ 2 (Or.inl (by decide))
     (Or.inl (Or.inl (by norm_num))),
   claim_C9_from_range_validation.2.2.1 "hsl" _ _ 2 (Or.inr (by decide))
     (Or.inr (Or.inl (by norm_num))),
   claim_C9_from_range_validation.2.2.2 "lab" _ _ 2 (by decide)
     (Or.inl (by norm_num))⟩

theorem Colormap.linspace01_length (N : Nat) : (linspace01 N).length = N := by
  rw [linspace01]
  split
  · simp only [List.length_singleton]; omega
  · rw [List.length_map, List.length_range]

theorem Colormap.linspace01_head (N : Nat) (h : 2 ≤ N) :
    (linspace01 N).head? = some 0 := by
  rw [linspace01, if_neg (by omega), List.head?_map]
  have hr : (List.range N).head? = some 0 := by
    cases N with
    | zero => omega
    | succ n => rw [List.range_succ_eq_map]; rfl
  rw [hr]
  simp

theorem Colormap.linspace01_getLast (N : Nat) (h : 2 ≤ N) :
    (linspace01 N).getLast? = some 1 := by
  rw [linspace01, if_neg (by omega), List.getLast?_map]
  have hr : (List.range N).getLast? = some (N - 1) := by
    cases N with
    | zero => omega
    | succ n => rw [List.range_succ, List.getLast?_concat]; simp
  rw [hr]
  simp only [Option.map_some']
  congr 1
  have h2 : (2 : ℝ) ≤ (N : ℝ) := by exact_mod_cast h
  rw [Nat.cast_sub (by omega : 1 ≤ N), Nat.cast_one, div_self (by linarith)]

theorem Colormap.interp_zero (low high : V3)
    (h1 : ¬(low.y < 0.05 ∧ high.y > 0.05)) :
    interpolateMsh 0 low high = low := by
  simp only [interpolateMsh]
  by_cases hc : low.y > 0.05 ∧ high.y > 0.05 ∧ |low.z - high.z| > Real.pi / 3
  · rw [if_pos hc, if_pos (by norm_num : (0 : ℝ) < 0.5)]
    rw [if_neg (fun hcon => absurd hcon.1 (not_lt.mpr hc.1.le)),
      if_pos ⟨hc.1, by norm_num⟩]
    ext <;> simp [lerpV]
  · rw [if_neg hc]
    by_cases hd : low.y > 0.05 ∧ high.y < 0.05
    · rw [if_neg h1, if_pos hd]
      ext <;> simp [lerpV]
    · rw [if_neg h1, if_neg hd]
      ext <;> simp [lerpV]

theorem Colormap.interp_one (low high : V3)
    (h2 : ¬(high.y < 0.05 ∧ low.y > 0.05)) :
    interpolateMsh 1 low high = high := by
  simp only [interpolateMsh]
  by_cases hc : low.y > 0.05 ∧ high.y > 0.05 ∧ |low.z - high.z| > Real.pi / 3
  · rw [if_pos hc, if_neg (by norm_num : ¬((1 : ℝ) < 0.5))]
    rw [if_pos ⟨by norm_num, hc.2.1⟩]
    ext <;> simp [lerpV] <;> ring
  · rw [if_neg hc]
    by_cases hd : low.y < 0.05 ∧ high.y > 0.05
    · rw [if_pos hd]
      ext <;> simp [lerpV]
    · rw [if_neg hd, if_neg (fun hcon => h2 ⟨hcon.2, hcon.1⟩)]
      ext <;> simp [lerpV]

/-- C1 (amended): a successful `from_range` call returns exactly k colours
for every k >= 2, and colors[0] / colors[-1] equal the RGB conversions of
the bounds PROVIDED it is not the case that exactly one converted endpoint
has saturation below 0.05 while the other exceeds 0.05 — in that excluded
case the hue-adjustment branch of `_interpolate_msh` modifies the endpoint
before it is converted back to RGB (see the counterexample). -/
theorem claim_C1_count_and_endpoints (model : String) (low high : V3) (k : Nat)
    (cs : List V3) (hok : Colormap.from_range low high k model = .ok cs)
    (hk : 2 ≤ k) :
    cs.length = k ∧
    (¬((Colormap.toMshFn (strLower model) low).y < 0.05 ∧
       (Colormap.toMshFn (strLower model) high).y > 0.05) →
      cs.head? = some (Colormap.msh2rgb (Colormap.toMshFn (strLower model) low))) ∧
    (¬((Colormap.toMshFn (strLower model) high).y < 0.05 ∧
       (Colormap.toMshFn (strLower model) low).y > 0.05) →
      cs.getLast? = some (Colormap.msh2rgb (Colormap.toMshFn (strLower model) high))) := by
  have hcs : cs = (Colormap.linspace01 k).map fun frac =>
      Colormap.msh2rgb (Colormap.interpolateMsh frac
        (Colormap.toMshFn (strLower model) low)
        (Colormap.toMshFn (strLower model) high)) := by
    simp only [Colormap.from_range] at hok
    split at hok
    · exact absurd hok (by simp)
    · split at hok
      · exact absurd hok (by simp)
      · exact (Except.ok.inj hok).symm
  subst hcs
  refine ⟨?_, ?_, ?_⟩
  · rw [List.length_map, Colormap.linspace01_length]
  · intro h1
    rw [List.head?_map, Colormap.linspace01_head k hk, Option.map_some',
      Colormap.interp_zero _ _ h1]
  · intro h2
    rw [List.getLast?_map, Colormap.linspace01_getLast k hk, Option.map_some',
      Colormap.interp_one _ _ h2]

/-- Witness for C1 at model msh, low = high = (50, 1, 0), k = 2. -/
theorem claim_C1_witness :
    Colormap.from_range ⟨50, 1, 0⟩ ⟨50, 1, 0⟩ 2 "msh" =
      .ok ((Colormap.linspace01 2).map fun frac =>
        Colormap.msh2rgb (Colormap.interpolateMsh frac
          (Colormap.toMshFn (strLower "msh") ⟨50, 1, 0⟩)
          (Colormap.toMshFn (strLower "msh") ⟨50, 1, 0⟩))) ∧
    ((Colormap.linspace01 2).map fun frac =>
        Colormap.msh2rgb (Colormap.interpolateMsh frac
          (Colormap.toMshFn (strLower "msh") ⟨50, 1, 0⟩)
          (Colormap.toMshFn (strLower "msh") ⟨50, 1, 0⟩))).length = 2 ∧
    ((Colormap.linspace01 2).map fun frac =>
        Colormap.msh2rgb (Colormap.interpolateMsh frac
          (Colormap.toMshFn (strLower "msh") ⟨50, 1, 0⟩)
          (Colormap.toMshFn (strLower "msh") ⟨50, 1, 0⟩))).head? =
      some (Colormap.msh2rgb (Colormap.toMshFn (strLower "msh") ⟨50, 1, 0⟩)) := by
  have hml : strLower "msh" = "msh" := by decide
  have hnb : ¬ Colormap.outOfBounds "msh" ⟨50, 1, 0⟩ ⟨50, 1, 0⟩ := by
    rw [Colormap.outOfBounds, if_neg (by decide), if_neg (by decide),
      if_neg (by decide), if_neg (by decide)]
    exact not_false
  have hy : Colormap.toMshFn (strLower "msh") (⟨50, 1, 0⟩ : V3) = ⟨50, 1, 0⟩ := by
    rw [hml, Colormap.toMshFn, if_neg (by decide), if_neg (by decide),
      if_neg (by decide), if_neg (by decide), if_neg (by decide)]
  have hok : Colormap.from_range ⟨50, 1, 0⟩ ⟨50, 1, 0⟩ 2 "msh" =
      .ok ((Colormap.linspace01 2).map fun frac =>
        Colormap.msh2rgb (Colormap.interpolateMsh frac
          (Colormap.toMshFn (strLower "msh") ⟨50, 1, 0⟩)
          (Colormap.toMshFn (strLower "msh") ⟨50, 1, 0⟩))) := by
    simp only [Colormap.from_range]
    rw [hml, if_neg (by decide), if_neg hnb]
  have hmain := claim_C1_count_and_endpoints "msh" ⟨50, 1, 0⟩ ⟨50, 1, 0⟩ 2 _ hok
    (le_refl 2)
  exact ⟨hok, hmain.1,
    hmain.2.1 (by rw [hy]; exact fun hcon => absurd hcon.1 (by norm_num))⟩

theorem Colormap.compand_clip_mono (u v : ℝ) (hu6 : 1/6 < u) (huv : u < v)
    (hv : v < 1) : clip01 (compand u) < clip01 (compand v) := by
  have hu0 : (0.0031308 : ℝ) < u := by norm_num at hu6 ⊢; linarith
  have hv0 : (0.0031308 : ℝ) < v := lt_trans hu0 huv
  have hu1 : u < 1 := lt_trans huv hv
  have hcu : compand u = u ^ ((1 : ℝ) / 2.4) * 1.0555 - 0.0555 := by
    rw [compand, if_pos hu0]
  have hcv : compand v = v ^ ((1 : ℝ) / 2.4) * 1.0555 - 0.0555 := by
    rw [compand, if_pos hv0]
  have hmono : u ^ ((1 : ℝ) / 2.4) < v ^ ((1 : ℝ) / 2.4) :=
    Real.rpow_lt_rpow (by linarith) huv (by norm_num)
  have hup : u ≤ u ^ ((1 : ℝ) / 2.4) := by
    have := Real.rpow_le_rpow_of_exponent_ge (by linarith : (0 : ℝ) < u) hu1.le
      (by norm_num : (1 : ℝ) / 2.4 ≤ 1)
    simpa using this
  have hvlt : v ^ ((1 : ℝ) / 2.4) < 1 :=
    Real.rpow_lt_one (by linarith) hv (by norm_num)
  have hlbu : 0 ≤ compand u := by rw [hcu]; nlinarith
  have hubv : compand v ≤ 1 := by rw [hcv]; nlinarith
  have hcuv : compand u < compand v := by rw [hcu, hcv]; nlinarith
  have e1 : clip01 (compand u) = compand u := by
    rw [clip01, max_eq_left hlbu, min_eq_right (by linarith)]
  have e2 : clip01 (compand v) = compand v := by
    rw [clip01, max_eq_left (by linarith), min_eq_right hubv]
  rw [e1, e2]
  exact hcuv

/-- The red components of the two Lab colours (50c, -50s, 0) and
(50c, 50s, 0) differ (strictly) for c, s in the tight rational brackets of
cos(1/25) and sin(1/25): flipping the sign of the a-channel moves the red
channel of the converted RGB colour. -/
theorem Colormap.red_gap (c s : ℝ) (hc0 : 1249/1250 < c) (hc1 : c ≤ 1)
    (hs0 : 2499/62500 < s) (hs1 : s < 1/25) :
    (xyz2rgb (lab2xyz ⟨50*c, -(50*s), 0⟩)).x <
      (xyz2rgb (lab2xyz ⟨50*c, 50*s, 0⟩)).x := by
  have h1m : ((50*c + 16)/116 + -(50*s)/500) ^ 3 > EPS := by
    rw [EPS]; nlinarith [sq_nonneg ((50*c + 16)/116 + -(50*s)/500)]
  have h1p : ((50*c + 16)/116 + (50*s)/500) ^ 3 > EPS := by
    rw [EPS]; nlinarith [sq_nonneg ((50*c + 16)/116 + (50*s)/500)]
  have h3 : ((50*c + 16)/116 - 0/200) ^ 3 > EPS := by
    rw [EPS]; nlinarith [sq_nonneg ((50*c + 16)/116 - 0/200)]
  have hL : (50 : ℝ)*c > KAPPA * EPS := by
    rw [KAPPA, EPS]; nlinarith
  have hxyz1 : lab2xyz ⟨50*c, -(50*s), 0⟩ =
      V3.mk (((50*c + 16)/116 + -(50*s)/500) ^ 3 * 0.95047)
            (((50*c + 16)/116) ^ 3 * 1.00000)
            (((50*c + 16)/116 - 0/200) ^ 3 * 1.08883) := by
    simp only [lab2xyz]
    rw [if_pos h1m, if_pos h3, if_pos hL]
  have hxyz2 : lab2xyz ⟨50*c, 50*s, 0⟩ =
      V3.mk (((50*c + 16)/116 + (50*s)/500) ^ 3 * 0.95047)
            (((50*c + 16)/116) ^ 3 * 1.00000)
            (((50*c + 16)/116 - 0/200) ^ 3 * 1.08883) := by
    simp only [lab2xyz]
    rw [if_pos h1p, if_pos h3, if_pos hL]
  rw [hxyz1, hxyz2]
  simp only [xyz2rgb]
  apply compand_clip_mono
  · have hbd : (8187/14500 : ℝ) < (50*c + 16)/116 + -(50*s)/500 := by linarith
    have hbd3 : (8187/14500 : ℝ) ^ 3 < ((50*c + 16)/116 + -(50*s)/500) ^ 3 :=
      pow_lt_pow_left₀ hbd (by norm_num) (by norm_num)
    have hb : (50*c + 16)/116 ≤ 33/58 := by linarith
    have hb3 : ((50*c + 16)/116) ^ 3 ≤ (33/58 : ℝ) ^ 3 :=
      pow_le_pow_left₀ (by linarith) hb 3
    have hbz3 : ((50*c + 16)/116 - 0/200) ^ 3 ≤ (33/58 : ℝ) ^ 3 := by
      have hx : (50*c + 16)/116 - 0/200 ≤ 33/58 := by linarith
      exact pow_le_pow_left₀ (by linarith) hx 3
    nlinarith [hbd3, hb3, hbz3]
  · have hlt : (50*c + 16)/116 + -(50*s)/500 < (50*c + 16)/116 + (50*s)/500 := by
      linarith
    have h3lt : ((50*c + 16)/116 + -(50*s)/500) ^ 3 <
        ((50*c + 16)/116 + (50*s)/500) ^ 3 :=
      pow_lt_pow_left₀ hlt (by linarith) (by norm_num)
    nlinarith [h3lt]
  · have hup : (50*c + 16)/116 + (50*s)/500 < 33/58 + 1/250 := by linarith
    have hup3 : ((50*c + 16)/116 + (50*s)/500) ^ 3 < (33/58 + 1/250 : ℝ) ^ 3 :=
      pow_lt_pow_left₀ hup (by linarith) (by norm_num)
    have hb3nn : (0 : ℝ) ≤ ((50*c + 16)/116) ^ 3 := by positivity
    have hbz3nn : (0 : ℝ) ≤ ((50*c + 16)/116 - 0/200) ^ 3 := by
      have hx : (0 : ℝ) ≤ (50*c + 16)/116 - 0/200 := by linarith
      positivity
    nlinarith [hup3, hb3nn, hbz3nn]

/-- C1 counterexample: with model msh, low = (50, 1/25, 0) (saturation 0.04
< 0.05) and high = (50, 1, pi), the hue-adjustment branch rewrites the hue
of the low endpoint to pi before interpolation, so colors[0] is the RGB of
Msh (50, 1/25, pi), whose red channel is strictly below that of the claimed
conversion of (50, 1/25, 0): colors[0] differs from the converted low
bound. -/
theorem claim_C1_counterexample :
    (Colormap.colorsOf (Colormap.from_range ⟨50, 1/25, 0⟩ ⟨50, 1, Real.pi⟩
      2 "msh")).getD 0 default ≠
      Colormap.msh2rgb ⟨50, 1/25, 0⟩ := by
  have hml : strLower "msh" = "msh" := by decide
  have hnb : ¬ Colormap.outOfBounds "msh" ⟨50, 1/25, 0⟩ ⟨50, 1, Real.pi⟩ := by
    rw [Colormap.outOfBounds, if_neg (by decide), if_neg (by decide),
      if_neg (by decide), if_neg (by decide)]
    exact not_false
  have hy1 : Colormap.toMshFn "msh" (⟨50, 1/25, 0⟩ : V3) = ⟨50, 1/25, 0⟩ := by
    rw [Colormap.toMshFn, if_neg (by decide), if_neg (by decide),
      if_neg (by decide), if_neg (by decide), if_neg (by decide)]
  have hy2 : Colormap.toMshFn "msh" (⟨50, 1, Real.pi⟩ : V3) = ⟨50, 1, Real.pi⟩ := by
    rw [Colormap.toMshFn, if_neg (by decide), if_neg (by decide),
      if_neg (by decide), if_neg (by decide), if_neg (by decide)]
  have hok : Colormap.from_range ⟨50, 1/25, 0⟩ ⟨50, 1, Real.pi⟩ 2 "msh" =
      .ok ((Colormap.linspace01 2).map fun frac =>
        Colormap.msh2rgb (Colormap.interpolateMsh frac ⟨50, 1/25, 0⟩
          ⟨50, 1, Real.pi⟩)) := by
    simp only [Colormap.from_range]
    rw [hml, if_neg (by decide), if_neg hnb, hy1, hy2]
  have hls : Colormap.linspace01 2 = [0, 1] := by
    rw [Colormap.linspace01, if_neg (by norm_num)]
    norm_num [List.range_succ]
  have hinterp : Colormap.interpolateMsh 0 ⟨50, 1/25, 0⟩ ⟨50, 1, Real.pi⟩ =
      (⟨50, 1/25, Real.pi⟩ : V3) := by
    simp only [Colormap.interpolateMsh]
    rw [if_neg (fun hcon => absurd hcon.1 (by norm_num)),
      if_pos ⟨by norm_num, by norm_num⟩]
    simp only [Colormap.adjustHue]
    rw [if_pos (by norm_num : ((⟨50, 1, Real.pi⟩ : V3)).x ≥ ((⟨50, 1/25, 0⟩ : V3)).x)]
    ext <;> simp [lerpV]
  have hhead : (Colormap.colorsOf (Colormap.from_range ⟨50, 1/25, 0⟩
      ⟨50, 1, Real.pi⟩ 2 "msh")).getD 0 default =
      Colormap.msh2rgb ⟨50, 1/25, Real.pi⟩ := by
    rw [hok, Colormap.colorsOf]
    simp only [Except.toOption, Option.getD_some]
    rw [hls]
    simp only [List.map_cons, List.getD_cons_zero]
    rw [hinterp]
  rw [hhead]
  have hlab1 : Colormap.msh2lab ⟨50, 1/25, Real.pi⟩ =
      V3.mk (50 * Real.cos (1/25)) (-(50 * Real.sin (1/25))) 0 := by
    simp only [Colormap.msh2lab]
    ext <;> simp [Real.cos_pi, Real.sin_pi]
  have hlab2 : Colormap.msh2lab ⟨50, 1/25, 0⟩ =
      V3.mk (50 * Real.cos (1/25)) (50 * Real.sin (1/25)) 0 := by
    simp only [Colormap.msh2lab]
    ext <;> simp [Real.cos_zero, Real.sin_zero]
  have hgap : (Colormap.msh2rgb ⟨50, 1/25, Real.pi⟩).x <
      (Colormap.msh2rgb ⟨50, 1/25, 0⟩).x := by
    simp only [Colormap.msh2rgb, Colormap.lab2rgb]
    rw [hlab1, hlab2]
    exact Colormap.red_gap (Real.cos (1/25)) (Real.sin (1/25))
      (by have := Real.one_sub_sq_div_two_lt_cos (x := (1/25 : ℝ)) (by norm_num)
          nlinarith [this])
      (Real.cos_le_one _)
      (by have := Real.sin_gt_sub_cube (x := (1/25 : ℝ)) (by norm_num) (by norm_num)
          nlinarith [this])
      (Real.sin_lt (by norm_num))
  intro hcon
  rw [hcon] at hgap
  exact lt_irrefl _ hgap

end Damask
